import Mathlib

/-!
Shallow embedding of `VULNERABLE_CODE_EXAMPLE.cc`: a resource arbiter
(`GetResource`) in a privileged browser process that grants a requested or
fallback resource kind to an untrusted renderer, the adversarial driver
(`SimulateCompromisedRenderer`) and the program entry point (`main`).

`ResourceType` is a C++ `enum class` whose underlying integral type can hold
values outside the enumerators (the driver casts `99` to it), so it is
embedded as `Int` with the two enumerators `kSafe = 0` and `kPrivileged = 1`.
Diagnostic `std::cout` output is embedded as a list of emitted lines, one
string per `<< std::endl` statement.
-/

/-- Underlying integral type of the C++ `enum class ResourceType`; values
outside the enumerators (such as `99`) are representable, as in C++. -/
abbrev ResourceType := Int

/-- Enumerator `ResourceType::kSafe` (first enumerator, value 0). -/
def kSafe : ResourceType := 0

/-- Enumerator `ResourceType::kPrivileged` (second enumerator, value 1). -/
def kPrivileged : ResourceType := 1

/-- The C++ class `ResourceHandle`: a resource kind together with a string
identifier. -/
structure ResourceHandle where
  type : ResourceType
  name : String
deriving DecidableEq, Repr

/-- `ResourceHandle::Print`: the single line it writes to stdout. -/
def ResourceHandle.Print (h : ResourceHandle) : String :=
  "Resource Handle: \x27" ++ h.name ++ "\x27 (Type: " ++
    (if h.type == kSafe then "Safe" else "Privileged") ++ ")"

/-- The flawed arbiter `GetResource(requested_type, fallback_type)` from the
browser process.  Returns the lines it prints and the handle it constructs
(`std::make_unique` on both branches, so the C++ result is never null). -/
def GetResource (requested_type fallback_type : ResourceType) :
    List String × ResourceHandle :=
  let log0 := "[Browser Process] Received request for resource."
  let is_resource_available : Bool := requested_type == kSafe
  if is_resource_available then
    ([log0, "[Browser Process] Requested resource is available. Granting."],
      ⟨requested_type, "safe_resource.tmp"⟩)
  else
    ([log0,
      "[Browser Process] WARNING: Requested resource not available. Granting fallback."],
      ⟨fallback_type, "privileged_browser_process_handle"⟩)

/-- The adversarial driver `SimulateCompromisedRenderer`: crafts the request
`((ResourceType)99, kPrivileged)`, calls `GetResource`, prints the handle and
prints the SUCCESS line when the received handle is privileged.  Embedded as
the full list of lines the run prints. -/
def SimulateCompromisedRenderer : List String :=
  let l1 := "\n[Renderer Process] Attacker has control."
  let l2 := "[Renderer Process] Crafting malicious IPC message..."
  let malicious_request : ResourceType := 99
  let malicious_fallback : ResourceType := kPrivileged
  let l3 := "[Renderer Process] Sending IPC to browser: request invalid type, but set fallback to Privileged."
  let r := GetResource malicious_request malicious_fallback
  let handle := r.2
  let l4 := "[Renderer Process] Received handle from browser!"
  [l1, l2, l3] ++ r.1 ++ [l4, handle.Print] ++
    (if handle.type == kPrivileged then
      ["[Renderer Process] SUCCESS. Sandbox escape achieved. We now have a privileged handle."]
    else [])

namespace Cve

/-- The program entry point `main`: runs `SimulateCompromisedRenderer` and
returns 0.  Embedded as the printed output paired with the exit status. -/
def main : List String × Int :=
  (SimulateCompromisedRenderer, 0)

end Cve

/-- The single error kind of the spec's corrected mode. -/
inductive GrantError where
  | PermissionDenied
deriving DecidableEq, Repr

/-- Modelled from the spec: the corrected-mode `Decide` is absent from the
source (only the flawed `GetResource` exists).  Per the spec, on the
unavailable branch the fallback kind must itself pass the same availability
check (`requested == Safe`, here `kSafe`) before being granted; if it also
fails, the call fails with `PermissionDenied` rather than granting. -/
def DecideCorrected (requested fallback : ResourceType) :
    Except GrantError ResourceHandle :=
  if requested == kSafe then
    Except.ok ⟨requested, "safe_resource.tmp"⟩
  else if fallback == kSafe then
    Except.ok ⟨fallback, "fallback_resource.tmp"⟩
  else
    Except.error GrantError.PermissionDenied

/-- C1: for every `requested ≠ kSafe` (including out-of-range values such as
99) the flawed `GetResource` with `fallback = kPrivileged` returns a handle of
kind `kPrivileged`, violating the privileged-handle invariant for the
untrusted caller. -/
theorem C1_flaw_characterization (requested : ResourceType)
    (h : requested ≠ kSafe) :
    (GetResource requested kPrivileged).2.type = kPrivileged := by
  simp [GetResource, h]

/-- Witness for C1 at the out-of-range value 99. -/
theorem C1_flaw_characterization_witness :
    (GetResource 99 kPrivileged).2.type = kPrivileged :=
  C1_flaw_characterization 99 (by decide)

/-- C2: whenever the request is unavailable (`requested ≠ kSafe`), the flawed
`GetResource` grants a handle whose kind is exactly `fallback`, for every
`fallback`, with no check applied to it. -/
theorem C2_fallback_unchecked (requested fallback : ResourceType)
    (h : requested ≠ kSafe) :
    (GetResource requested fallback).2.type = fallback := by
  simp [GetResource, h]

/-- Witness for C2: Scenario C, `requested = 99`, `fallback = kSafe`. -/
theorem C2_fallback_unchecked_witness :
    (GetResource 99 kSafe).2.type = kSafe :=
  C2_fallback_unchecked 99 kSafe (by decide)

/-- C3: for `requested = kSafe` the returned handle has kind `kSafe` for
every `fallback` value, including `kPrivileged`: the fallback argument has no
effect on this path. -/
theorem C3_safe_path (fallback : ResourceType) :
    (GetResource kSafe fallback).2.type = kSafe := by
  simp [GetResource]

/-- C4: corrected-mode `Decide` never returns a privileged handle to the
untrusted caller, and when neither `requested` nor `fallback` passes the
availability check it fails with `PermissionDenied`. -/
theorem C4_corrected_mode (requested fallback : ResourceType) :
    (∀ h, DecideCorrected requested fallback = Except.ok h →
      h.type ≠ kPrivileged) ∧
    (requested ≠ kSafe → fallback ≠ kSafe →
      DecideCorrected requested fallback =
        Except.error GrantError.PermissionDenied) := by
  constructor
  · intro h hok
    unfold DecideCorrected at hok
    split at hok
    next hc =>
      injection hok with hh
      subst hh
      have hr : requested = kSafe := by simpa using hc
      subst hr
      decide
    next hc =>
      split at hok
      next hf =>
        injection hok with hh
        subst hh
        have hr : fallback = kSafe := by simpa using hf
        subst hr
        decide
      next hf =>
        simp at hok
  · intro hr hf
    simp [DecideCorrected, hr, hf]

/-- Witness for C4: Scenario B, `requested = 99`, `fallback = kPrivileged`
fails with `PermissionDenied`. -/
theorem C4_corrected_mode_witness :
    DecideCorrected 99 kPrivileged = Except.error GrantError.PermissionDenied :=
  (C4_corrected_mode 99 kPrivileged).2 (by decide) (by decide)

/-- C5: flawed `GetResource` is total and has no error outcome: for every
input pair it returns one of the two concretely constructed handles (the C++
code calls `std::make_unique` on both branches, so the result is non-null). -/
theorem C5_total_never_fails (requested fallback : ResourceType) :
    (GetResource requested fallback).2 =
      ⟨requested, "safe_resource.tmp"⟩ ∨
    (GetResource requested fallback).2 =
      ⟨fallback, "privileged_browser_process_handle"⟩ := by
  by_cases h : requested = kSafe
  · left
    simp [GetResource, h]
  · right
    simp [GetResource, h]

/-- C6: `GetResource` is deterministic in its result kind: two calls with
identical inputs return handles of identical kind. -/
theorem C6_deterministic (r1 f1 r2 f2 : ResourceType)
    (hr : r1 = r2) (hf : f1 = f2) :
    (GetResource r1 f1).2.type = (GetResource r2 f2).2.type := by
  subst hr
  subst hf
  rfl

/-- Witness for C6 at the driver's concrete inputs. -/
theorem C6_deterministic_witness :
    (GetResource 99 kPrivileged).2.type = (GetResource 99 kPrivileged).2.type :=
  C6_deterministic 99 kPrivileged 99 kPrivileged rfl rfl

/-- C7: `main` runs exactly the one adversarial scenario
`SimulateCompromisedRenderer` (its output is exactly that scenario's output)
and returns exit status 0 unconditionally. -/
theorem C7_main_runs_scenario_exits_zero :
    Cve.main.1 = SimulateCompromisedRenderer ∧ Cve.main.2 = 0 :=
  ⟨rfl, rfl⟩

/-- C8: the name of the returned handle is a fixed constant determined solely
by the branch taken: `safe_resource.tmp` when `requested = kSafe`, otherwise
`privileged_browser_process_handle`; names are not generated per call. -/
theorem C8_names_fixed_per_branch (requested fallback : ResourceType) :
    (GetResource requested fallback).2.name =
      (if requested = kSafe then "safe_resource.tmp"
       else "privileged_browser_process_handle") := by
  by_cases h : requested = kSafe
  · simp [GetResource, h]
  · simp [GetResource, h]

/-- C9: the kind of the returned handle is always one of the two arguments;
in particular `GetResource` returns a privileged handle only when the caller
supplied `kPrivileged` as `requested` or as `fallback`. -/
theorem C9_kind_from_arguments (requested fallback : ResourceType) :
    ((GetResource requested fallback).2.type = requested ∨
      (GetResource requested fallback).2.type = fallback) ∧
    ((GetResource requested fallback).2.type = kPrivileged →
      requested = kPrivileged ∨ fallback = kPrivileged) := by
  by_cases h : requested = kSafe
  · constructor
    · left
      simp [GetResource, h]
    · intro hp
      simp [GetResource, h] at hp
      left
      rw [h]
      exact hp
  · constructor
    · right
      simp [GetResource, h]
    · intro hp
      simp [GetResource, h] at hp
      right
      exact hp

/-- Witness for C9 at the driver's concrete inputs. -/
theorem C9_kind_from_arguments_witness :
    (99 : ResourceType) = kPrivileged ∨ kPrivileged = kPrivileged :=
  (C9_kind_from_arguments 99 kPrivileged).2 (by decide)

/-- C10: the adversarial driver always obtains a privileged handle from
`GetResource ((ResourceType)99) kPrivileged`, so its sandbox-escape SUCCESS
branch is taken on every execution (the SUCCESS line is in its output). -/
theorem C10_escape_branch_taken :
    (GetResource 99 kPrivileged).2.type = kPrivileged ∧
    "[Renderer Process] SUCCESS. Sandbox escape achieved. We now have a privileged handle."
      ∈ SimulateCompromisedRenderer := by
  constructor
  · decide
  · simp [SimulateCompromisedRenderer, GetResource, kSafe, kPrivileged]
